import Mathlib

/-!
# Verification of the Snake game engine

Shallow embedding of the game engine found in `src/App.tsx` and of the
review gateway found in `src/services/geminiService.ts` (the unnamed
source file importing `@google/genai`).  React state hooks become fields
of an explicit `GameState` record; the rejection-sampling random number
generator of `generateFood` becomes an explicit stream of candidate
coordinates, so that the while-loop is the first accepted candidate of
the stream (`none` models an infinite loop: no candidate is ever
accepted); JavaScript numbers used by the speed model become rationals
(all values involved are exact in IEEE doubles for realistic scores).
-/

namespace SnakeGame

/-- `Point` from `types.ts`: integer pair (x, y). -/
structure Point where
  x : Int
  y : Int
deriving DecidableEq

/-- `Direction` enum from `types.ts`. -/
inductive Direction where
  | UP
  | DOWN
  | LEFT
  | RIGHT
deriving DecidableEq

/-- `Difficulty` enum from `types.ts`. -/
inductive Difficulty where
  | EASY
  | MEDIUM
  | HARD
deriving DecidableEq

/-- `DifficultyConfig` from `types.ts` (numeric fields as exact rationals). -/
structure DifficultyConfig where
  initialSpeed : ℚ
  speedIncrement : ℚ
  label : String
deriving DecidableEq

/-- `GRID_SIZE` constant of `App.tsx` (line 7). -/
def GRID_SIZE : Int := 20

/-- `DIFFICULTY_SETTINGS` record of `App.tsx` (lines 9-13). -/
def DIFFICULTY_SETTINGS : Difficulty → DifficultyConfig
  | .EASY => { initialSpeed := 200, speedIncrement := 3/2, label := "Novice" }
  | .MEDIUM => { initialSpeed := 140, speedIncrement := 3, label := "Veteran" }
  | .HARD => { initialSpeed := 90, speedIncrement := 6, label := "Legend" }

/-- The React state hooks of the `App` component (`App.tsx` lines 16-31)
gathered into one record.  `direction` is the pending direction (the
`direction` useState hook); `lastDirection` is the `lastDirection` ref,
the direction used by the most recently completed tick. -/
structure GameState where
  snake : List Point
  food : Point
  direction : Direction
  isGameOver : Bool
  isPaused : Bool
  showPauseConfirm : Bool
  score : Nat
  highScore : Nat
  difficulty : Difficulty
  lastDirection : Direction
deriving DecidableEq

/-- The spec's `GamePhase` enum (spec §3), used to phrase the claims. -/
inductive GamePhase where
  | READY
  | RUNNING
  | PAUSED
  | CONFIRM_PAUSE
  | OVER
deriving DecidableEq

/-- Mapping of the source's boolean flags to the spec's phases (spec §4.5):
OVER iff `isGameOver`; RUNNING iff not paused; among paused states, the
confirm dialog marks CONFIRM_PAUSE, zero score marks the pre-game READY
overlay, and a positive score marks PAUSED. -/
def phase (s : GameState) : GamePhase :=
  if s.isGameOver then .OVER
  else if s.isPaused = false then .RUNNING
  else if s.showPauseConfirm then .CONFIRM_PAUSE
  else if s.score = 0 then .READY
  else .PAUSED

/-- `generateFood` of `App.tsx` (lines 82-94).  The `Math.random` stream is
made explicit as the list `candidates` of sampled coordinates; the
while-loop returns the first candidate not occupied by `currentSnake`.
`none` means no candidate of the stream is ever accepted — i.e. the
source loop does not terminate on that stream. -/
def generateFood (currentSnake : List Point) : List Point → Option Point
  | [] => none
  | c :: rest =>
    if currentSnake.any (fun segment => segment.x == c.x && segment.y == c.y) then
      generateFood currentSnake rest
    else
      some c

/-- `currentSpeed` memo of `App.tsx` (lines 34-37):
`Math.max(30, config.initialSpeed - (score / 10) * config.speedIncrement)`. -/
def currentSpeed (difficulty : Difficulty) (score : Nat) : ℚ :=
  max 30 ((DIFFICULTY_SETTINGS difficulty).initialSpeed -
    ((score : ℚ) / 10) * (DIFFICULTY_SETTINGS difficulty).speedIncrement)

/-- The initial snake of `App.tsx` (line 16), also restored by
`resetGame` (line 97). -/
def initialSnake : List Point := [⟨10, 10⟩, ⟨10, 11⟩, ⟨10, 12⟩]

/-- `resetGame` of `App.tsx` (lines 96-107).  Note the occupancy set
passed to `generateFood` on line 98 is `[{x: 10, y: 10}]` — the head
only, not the whole initial snake.  Returns `none` when the candidate
stream never yields an accepted coordinate. -/
def resetGame (s : GameState) (candidates : List Point) : Option GameState :=
  match generateFood [⟨10, 10⟩] candidates with
  | none => none
  | some f =>
    some { s with
      snake := initialSnake
      food := f
      direction := .UP
      lastDirection := .UP
      isGameOver := false
      score := 0
      isPaused := false
      showPauseConfirm := false }

/-- Synchronous state effects of `endGame` (`App.tsx` lines 109-118):
set game-over and paused flags, hide the confirm dialog, raise the high
score.  The asynchronous review fetch is modelled separately. -/
def endGame (s : GameState) : GameState :=
  { s with
    isGameOver := true
    isPaused := true
    showPauseConfirm := false
    highScore := max s.score s.highScore }

/-- The head displacement of the `switch (direction)` in `moveSnake`
(`App.tsx` lines 136-141). -/
def nextHead (head : Point) : Direction → Point
  | .UP => { head with y := head.y - 1 }
  | .DOWN => { head with y := head.y + 1 }
  | .LEFT => { head with x := head.x - 1 }
  | .RIGHT => { head with x := head.x + 1 }

/-- Wall-collision test of `moveSnake` (`App.tsx` line 144). -/
def wallCollision (p : Point) : Prop :=
  p.x < 0 ∨ GRID_SIZE ≤ p.x ∨ p.y < 0 ∨ GRID_SIZE ≤ p.y

instance (p : Point) : Decidable (wallCollision p) := by
  unfold wallCollision; infer_instance

/-- `moveSnake` of `App.tsx` (lines 131-169), as one pure step on
`GameState` threading the food-placement candidate stream.  Collisions
call `endGame` and keep `prevSnake`; otherwise the new head is
prepended, a food hit grows the snake, bumps the score by 10 and
relocates the food over the grown snake, and a miss pops the tail.
`lastDirection` is updated only on the non-collision paths, as in the
source.  `none` models the source diverging (empty snake indexing, or a
food placement that never accepts a candidate). -/
def moveSnake (s : GameState) (candidates : List Point) : Option GameState :=
  match s.snake with
  | [] => none
  | head :: _ =>
    let newHead := nextHead head s.direction
    if wallCollision newHead then
      some (endGame s)
    else if s.snake.any (fun segment => segment.x == newHead.x && segment.y == newHead.y) then
      some (endGame s)
    else
      let newSnake := newHead :: s.snake
      if newHead.x == s.food.x && newHead.y == s.food.y then
        match generateFood newSnake candidates with
        | none => none
        | some f =>
          some { s with
            snake := newSnake
            score := s.score + 10
            food := f
            lastDirection := s.direction }
      else
        some { s with
          snake := newSnake.dropLast
          lastDirection := s.direction }

/-- `handlePauseRequest` of `App.tsx` (lines 182-197). -/
def handlePauseRequest (s : GameState) : GameState :=
  if s.isGameOver = false ∧ 0 < s.score then
    if s.isPaused = false then
      { s with isPaused := true, showPauseConfirm := true }
    else
      { s with isPaused := false, showPauseConfirm := false }
  else if s.isGameOver = false ∧ s.score = 0 ∧ s.isPaused = true then
    { s with isPaused := false }
  else
    s

/-- The directional cases of `handleKeyDown` (`App.tsx` lines 200-221):
each intent is accepted iff `lastDirection` is not its exact opposite
and the game is not paused; `some d` models the `setDirection(d)` call
(an accepted request overwriting the pending direction), `none` models
rejection (no call). -/
def handleKeyDown (s : GameState) : Direction → Option Direction
  | .UP => if s.lastDirection ≠ .DOWN ∧ s.isPaused = false then some .UP else none
  | .DOWN => if s.lastDirection ≠ .UP ∧ s.isPaused = false then some .DOWN else none
  | .LEFT => if s.lastDirection ≠ .RIGHT ∧ s.isPaused = false then some .LEFT else none
  | .RIGHT => if s.lastDirection ≠ .LEFT ∧ s.isPaused = false then some .RIGHT else none

/-- The 180-degree opposite of a direction (spec §4.4). -/
def opposite : Direction → Direction
  | .UP => .DOWN
  | .DOWN => .UP
  | .LEFT => .RIGHT
  | .RIGHT => .LEFT

/-- `handleDifficultyChange` of `App.tsx` (lines 241-244): stores the new
tier unconditionally (the `localStorage` write is external). -/
def handleDifficultyChange (s : GameState) (d : Difficulty) : GameState :=
  { s with difficulty := d }

/-- Rendering condition of the difficulty-select buttons in the JSX of
`App.tsx`: the pre-game overlay (line 344 guard with `score === 0`,
buttons lines 351-359) and the game-over overlay (line 383 guard,
buttons lines 404-412). -/
def difficultyButtonsVisible (s : GameState) : Prop :=
  (s.isPaused = true ∧ s.isGameOver = false ∧ s.showPauseConfirm = false ∧ s.score = 0)
    ∨ s.isGameOver = true

instance (s : GameState) : Decidable (difficultyButtonsVisible s) := by
  unfold difficultyButtonsVisible; infer_instance

/-- `AICommentary` from `types.ts`. -/
structure AICommentary where
  comment : String
  rank : String
deriving DecidableEq

/-- Outcome of `JSON.parse` (with the TypeScript cast to `AICommentary`)
applied to the response text of the external call in `getGameReview`. -/
inductive ParseOutcome where
  | parsed (r : AICommentary)
  | throws
deriving DecidableEq

/-- Outcome of the `ai.models.generateContent` call in `getGameReview`:
either the awaited call throws, or it returns a response whose `text` is
the given string, bundled with what `JSON.parse` does on that text. -/
inductive GenOutcome where
  | apiThrows
  | apiOk (text : String) (parseOfText : ParseOutcome)
deriving DecidableEq

/-- The fixed fallback of the `catch` block of `getGameReview`
(`geminiService.ts`). -/
def fallbackCommentary : AICommentary :=
  { comment := "Your slithering was... adequate. Try not to eat your own tail next time."
    rank := "Persistent Reptile" }

/-- The inline default of `getGameReview` used when `response.text` is
falsy: `JSON.parse` of the literal
`'{"comment": "Better luck next time, hatchling.", "rank": "Worm"}'`. -/
def wormDefault : AICommentary :=
  { comment := "Better luck next time, hatchling.", rank := "Worm" }

/-- `getGameReview` of `geminiService.ts` (lines 8-39 of the unnamed
source file): on a successful call, `JSON.parse(response.text || DEFAULT)`
— an empty (falsy) text parses the inline default literal, yielding
`wormDefault`; a non-empty text is parsed, a parse exception falling
through to the `catch` block; any thrown error is caught and replaced by
`fallbackCommentary`.  Total: no error ever propagates to the caller. -/
def getGameReview : GenOutcome → AICommentary
  | .apiThrows => fallbackCommentary
  | .apiOk text parseOfText =>
    if text = "" then
      wormDefault
    else
      match parseOfText with
      | .parsed r => r
      | .throws => fallbackCommentary

/-! ## Helper lemmas -/

/-- A coordinate returned by `generateFood` is not occupied by any
segment of the occupancy list it was called with: the while-loop only
breaks on an unoccupied sample. -/
lemma generateFood_not_occupied (occupied : List Point) (candidates : List Point)
    (f : Point) (h : generateFood occupied candidates = some f) :
    occupied.any (fun segment => segment.x == f.x && segment.y == f.y) = false := by
  induction candidates with
  | nil => simp [generateFood] at h
  | cons c rest ih =>
    unfold generateFood at h
    by_cases hc : occupied.any (fun segment => segment.x == c.x && segment.y == c.y) = true
    · rw [if_pos hc] at h
      exact ih h
    · rw [if_neg hc] at h
      injection h with h
      subst h
      exact Bool.eq_false_iff.mpr hc

/-- A list's `getLast?` value is a member of the list. -/
lemma mem_of_getLast?_eq (l : List Point) (a : Point) (h : l.getLast? = some a) :
    a ∈ l := by
  obtain ⟨hne, rfl⟩ := List.mem_getLast?_eq_getLast (Option.mem_def.mpr h)
  exact List.getLast_mem hne

/-- A snake occupying every cell of the 20x20 grid. -/
def fullGridSnake : List Point :=
  (List.range 20).flatMap (fun i => (List.range 20).map (fun j => ⟨Int.ofNat i, Int.ofNat j⟩))

/-- Every in-bounds coordinate is a segment of `fullGridSnake`. -/
lemma mem_fullGridSnake (p : Point) (hx0 : 0 ≤ p.x) (hx : p.x < GRID_SIZE)
    (hy0 : 0 ≤ p.y) (hy : p.y < GRID_SIZE) : p ∈ fullGridSnake := by
  obtain ⟨x, y⟩ := p
  dsimp only at hx0 hx hy0 hy
  have hgs : GRID_SIZE = 20 := rfl
  rw [hgs] at hx hy
  unfold fullGridSnake
  have h1 : x.toNat ∈ List.range 20 := List.mem_range.mpr (by omega)
  have h2 : y.toNat ∈ List.range 20 := List.mem_range.mpr (by omega)
  have h3 : (⟨Int.ofNat x.toNat, Int.ofNat y.toNat⟩ : Point) = ⟨x, y⟩ := by
    rw [Point.mk.injEq]
    simp only [Int.ofNat_eq_natCast]
    constructor <;> omega
  exact List.mem_flatMap.mpr ⟨x.toNat, h1, List.mem_map.mpr ⟨y.toNat, h2, h3⟩⟩

/-! ## Concrete states used by witnesses and counterexamples -/

/-- A game-over state from which the RETRY button invokes `resetGame`. -/
def preResetState : GameState :=
  { snake := [⟨3, 3⟩], food := ⟨7, 7⟩, direction := .LEFT, isGameOver := true,
    isPaused := true, showPauseConfirm := false, score := 50, highScore := 50,
    difficulty := .MEDIUM, lastDirection := .LEFT }

/-! ## Claims -/

/-- C2: the occupancy set `resetGame` hands to `generateFood` is the
single cell (10,10) (line 98 of `App.tsx`), not the full initial
3-segment snake: when the sampler first draws (10,11), the reset stores
food on a body segment of the freshly reset snake, violating the
food-disjointness invariant at placement time. -/
theorem c2_reset_food_on_snake :
    resetGame preResetState [⟨10, 11⟩] =
      some { preResetState with
        snake := initialSnake, food := ⟨10, 11⟩, direction := .UP,
        lastDirection := .UP, isGameOver := false, score := 0,
        isPaused := false, showPauseConfirm := false }
    ∧ (⟨10, 11⟩ : Point) ∈ initialSnake := by
  decide

/-- C3: food placement does not terminate on a full grid.  For a snake
occupying every cell of the 20x20 grid, every sample the in-bounds
random generator can produce is rejected, so `generateFood` accepts no
candidate of any stream — the source's `while (true)` loop runs forever
instead of returning a sentinel, a distinct error, or asserting. -/
theorem c3_full_grid_no_placement (candidates : List Point)
    (h : ∀ c ∈ candidates, 0 ≤ c.x ∧ c.x < GRID_SIZE ∧ 0 ≤ c.y ∧ c.y < GRID_SIZE) :
    generateFood fullGridSnake candidates = none := by
  induction candidates with
  | nil => rfl
  | cons c rest ih =>
    have hc := h c (List.mem_cons_self _ _)
    have hmem : c ∈ fullGridSnake :=
      mem_fullGridSnake c hc.1 hc.2.1 hc.2.2.1 hc.2.2.2
    have hany : fullGridSnake.any
        (fun segment => segment.x == c.x && segment.y == c.y) = true := by
      rw [List.any_eq_true]
      exact ⟨c, hmem, by simp⟩
    unfold generateFood
    rw [if_pos hany]
    exact ih (fun d hd => h d (List.mem_cons_of_mem _ hd))

/-- C3 witness: a concrete in-bounds sample stream on the full grid. -/
theorem c3_full_grid_no_placement_witness :
    generateFood fullGridSnake [⟨0, 0⟩, ⟨19, 19⟩] = none :=
  c3_full_grid_no_placement [⟨0, 0⟩, ⟨19, 19⟩] (by decide)

/-- C5: for each tier with its (initialInterval, incrementPerFoodUnit)
pair — EASY (200, 1.5), MEDIUM (140, 3), HARD (90, 6) — and any score
that is a multiple of 10, `currentSpeed` equals
max(30, initialInterval − (score/10) × incrementPerFoodUnit); it is
non-increasing in score and bounded below by 30. -/
theorem c5_tick_interval (d : Difficulty) (n s1 s2 : Nat) (h : s1 ≤ s2) :
    currentSpeed d (10 * n) =
      max 30 ((DIFFICULTY_SETTINGS d).initialSpeed -
        (n : ℚ) * (DIFFICULTY_SETTINGS d).speedIncrement)
    ∧ currentSpeed d s2 ≤ currentSpeed d s1
    ∧ 30 ≤ currentSpeed d s2 := by
  refine ⟨?_, ?_, le_max_left _ _⟩
  · unfold currentSpeed
    congr 1
    push_cast
    ring
  · unfold currentSpeed
    have hinc : 0 ≤ (DIFFICULTY_SETTINGS d).speedIncrement := by
      cases d <;> norm_num [DIFFICULTY_SETTINGS]
    have hdiv : (s1 : ℚ) / 10 ≤ (s2 : ℚ) / 10 := by
      have : (s1 : ℚ) ≤ (s2 : ℚ) := by exact_mod_cast h
      linarith
    exact max_le_max le_rfl (by nlinarith)

/-- C5 witness: EASY tier, scores 0 ≤ 40, n = 3. -/
theorem c5_tick_interval_witness :
    currentSpeed .EASY 30 =
      max 30 ((DIFFICULTY_SETTINGS .EASY).initialSpeed -
        (3 : ℚ) * (DIFFICULTY_SETTINGS .EASY).speedIncrement)
    ∧ currentSpeed .EASY 40 ≤ currentSpeed .EASY 0
    ∧ 30 ≤ currentSpeed .EASY 40 :=
  c5_tick_interval .EASY 3 0 40 (by norm_num)

/-- C9 counterexample: a successful call whose response text is empty
(falsy) is malformed data, yet the delivered pair is the inline Worm
default, not the fixed Persistent Reptile fallback. -/
theorem c9_counterexample :
    getGameReview (.apiOk "" .throws) = wormDefault
    ∧ wormDefault ≠ fallbackCommentary := by
  constructor
  · rfl
  · decide

/-- C9 (amended): when the external call throws, or its non-empty
response text fails JSON parsing, the fixed fallback pair
{Persistent Reptile, "Your slithering was... adequate."} is delivered
and no error propagates (the function is total); but an empty response
text yields the inline default {Worm, "Better luck next time,
hatchling."}, and a successfully parsed response is delivered as-is. -/
theorem c9_review_fallback (t : String) (p : ParseOutcome) (r : AICommentary)
    (h : t ≠ "") :
    getGameReview .apiThrows = fallbackCommentary
    ∧ getGameReview (.apiOk t .throws) = fallbackCommentary
    ∧ getGameReview (.apiOk "" p) = wormDefault
    ∧ getGameReview (.apiOk t (.parsed r)) = r := by
  refine ⟨rfl, ?_, rfl, ?_⟩
  · simp [getGameReview, h]
  · simp [getGameReview, h]

/-- C9 witness: a concrete non-empty unparseable text. -/
theorem c9_review_fallback_witness :
    getGameReview (.apiOk "oops" .throws) = fallbackCommentary :=
  (c9_review_fallback "oops" .throws wormDefault (by decide)).2.1

/-- A running state whose head is one step away from its own tail after a
loop: head (5,5), body (6,5), (6,6), tail (5,6); the last applied move
was LEFT and the pending direction DOWN points at the tail cell. -/
def tailChaseState : GameState :=
  { snake := [⟨5, 5⟩, ⟨6, 5⟩, ⟨6, 6⟩, ⟨5, 6⟩], food := ⟨0, 0⟩, direction := .DOWN,
    isGameOver := false, isPaused := false, showPauseConfirm := false,
    score := 20, highScore := 20, difficulty := .MEDIUM, lastDirection := .LEFT }

/-- C1 counterexample: in `tailChaseState` — RUNNING, length ≥ 2, the
tick's newHead is the current tail cell and not the food cell — the tick
does NOT complete normally: `moveSnake` hits the body-collision branch
(the check runs over the pre-move snake including the tail) and calls
`endGame`, transitioning to OVER. -/
theorem c1_counterexample :
    phase tailChaseState = .RUNNING
    ∧ 2 ≤ tailChaseState.snake.length
    ∧ tailChaseState.snake.head? = some ⟨5, 5⟩
    ∧ tailChaseState.snake.getLast? = some (nextHead ⟨5, 5⟩ tailChaseState.direction)
    ∧ nextHead ⟨5, 5⟩ tailChaseState.direction ≠ tailChaseState.food
    ∧ moveSnake tailChaseState [] = some (endGame tailChaseState)
    ∧ phase (endGame tailChaseState) = .OVER := by
  decide

/-- C1 (amended): a tick whose newHead equals the snake's current tail
cell IS a terminal self-collision in this code, even on a non-growth
tick: the occupancy check tests the pre-move snake including the
soon-to-be-vacated tail, so the tick calls `endGame` — transitioning to
OVER with the snake unchanged — instead of completing normally. -/
theorem c1_tail_collision (s : GameState) (candidates : List Point)
    (head : Point) (tl : List Point) (hs : s.snake = head :: tl)
    (hrun : phase s = .RUNNING) (h2 : 2 ≤ s.snake.length)
    (htail : s.snake.getLast? = some (nextHead head s.direction))
    (hfood : nextHead head s.direction ≠ s.food) :
    moveSnake s candidates = some (endGame s)
    ∧ (endGame s).snake = s.snake
    ∧ phase (endGame s) = .OVER := by
  have hmem : nextHead head s.direction ∈ s.snake :=
    mem_of_getLast?_eq _ _ htail
  refine ⟨?_, rfl, by simp [phase, endGame]⟩
  obtain ⟨snake, food, direction, over, paused, confirm, score, high, diff, last⟩ := s
  simp only at hs hmem ⊢
  subst hs
  simp only [moveSnake]
  by_cases hwall : wallCollision (nextHead head direction)
  · rw [if_pos hwall]
  · rw [if_neg hwall]
    have hany : (head :: tl).any (fun segment =>
        segment.x == (nextHead head direction).x
        && segment.y == (nextHead head direction).y) = true := by
      rw [List.any_eq_true]
      exact ⟨nextHead head direction, hmem, by simp⟩
    rw [if_pos hany]

/-- C1 witness for the amended theorem, at `tailChaseState`. -/
theorem c1_tail_collision_witness :
    moveSnake tailChaseState [] = some (endGame tailChaseState)
    ∧ (endGame tailChaseState).snake = tailChaseState.snake :=
  ⟨(c1_tail_collision tailChaseState [] ⟨5, 5⟩ [⟨6, 5⟩, ⟨6, 6⟩, ⟨5, 6⟩]
      (by decide) (by decide) (by decide) (by decide) (by decide)).1,
   (c1_tail_collision tailChaseState [] ⟨5, 5⟩ [⟨6, 5⟩, ⟨6, 6⟩, ⟨5, 6⟩]
      (by decide) (by decide) (by decide) (by decide) (by decide)).2.1⟩

/-- A mid-run RUNNING state. -/
def runningState : GameState :=
  { snake := initialSnake, food := ⟨5, 5⟩, direction := .UP,
    isGameOver := false, isPaused := false, showPauseConfirm := false,
    score := 30, highScore := 30, difficulty := .MEDIUM, lastDirection := .UP }

/-- C4 counterexample: in a RUNNING state, invoking the
difficulty-change operation is NOT a no-op — `handleDifficultyChange`
has no phase guard and stores the new tier unconditionally. -/
theorem c4_counterexample :
    phase runningState = .RUNNING
    ∧ (handleDifficultyChange runningState .EASY).difficulty
        ≠ runningState.difficulty := by
  decide

/-- C4 (amended): the difficulty-change handler itself stores the new
tier unconditionally in every phase, including RUNNING and PAUSED; the
restriction is enforced only by the UI, which renders the
difficulty-select buttons solely when the phase is READY or OVER. -/
theorem c4_difficulty_change (s : GameState) (d : Difficulty) :
    (handleDifficultyChange s d).difficulty = d
    ∧ (difficultyButtonsVisible s → phase s = .READY ∨ phase s = .OVER) := by
  refine ⟨rfl, ?_⟩
  rintro (⟨hp, ho, hc, hsc⟩ | ho)
  · left
    simp [phase, hp, ho, hc, hsc]
  · right
    simp [phase, ho]

/-- A pre-game READY state (start overlay showing). -/
def readyState : GameState :=
  { snake := initialSnake, food := ⟨5, 5⟩, direction := .UP,
    isGameOver := false, isPaused := true, showPauseConfirm := false,
    score := 0, highScore := 30, difficulty := .MEDIUM, lastDirection := .UP }

/-- C4 witness for the amended theorem, at `readyState`. -/
theorem c4_difficulty_change_witness :
    (handleDifficultyChange readyState .HARD).difficulty = .HARD
    ∧ (phase readyState = .READY ∨ phase readyState = .OVER) :=
  ⟨(c4_difficulty_change readyState .HARD).1,
   (c4_difficulty_change readyState .HARD).2 (by decide)⟩

/-- C6: under the reachable-state invariant that a game-over state is
also paused (every write of `isGameOver := true` in the source is
accompanied by `isPaused := true`), a directional intent is rejected
(`setDirection` not invoked) exactly when the phase is not RUNNING or
the intent is the exact 180-degree opposite of the last applied
direction; every accepted intent overwrites the single pending
direction with itself. -/
theorem c6_input_arbiter (s : GameState) (intent : Direction)
    (hinv : s.isGameOver = true → s.isPaused = true) :
    (handleKeyDown s intent = none ↔
      (phase s ≠ .RUNNING ∨ intent = opposite s.lastDirection))
    ∧ ∀ d, handleKeyDown s intent = some d → d = intent := by
  have hrun : phase s = .RUNNING ↔ s.isPaused = false := by
    unfold phase
    split_ifs <;> simp_all
  constructor
  · simp only [ne_eq, hrun]
    cases hpause : s.isPaused <;>
      cases intent <;> cases hlast : s.lastDirection <;>
        simp [handleKeyDown, hpause, hlast, opposite]
  · intro d
    cases intent <;>
      simp only [handleKeyDown] <;> split <;>
        intro hd <;> simp_all

/-- A RUNNING state whose last applied direction is UP. -/
def runningUpState : GameState :=
  { snake := initialSnake, food := ⟨5, 5⟩, direction := .UP,
    isGameOver := false, isPaused := false, showPauseConfirm := false,
    score := 10, highScore := 10, difficulty := .HARD, lastDirection := .UP }

/-- C6 witness: with lastApplied = UP in a RUNNING state, intent DOWN is
rejected while LEFT and RIGHT are accepted and stored. -/
theorem c6_input_arbiter_witness :
    handleKeyDown runningUpState .DOWN = none
    ∧ handleKeyDown runningUpState .LEFT = some .LEFT
    ∧ handleKeyDown runningUpState .RIGHT = some .RIGHT :=
  ⟨(c6_input_arbiter runningUpState .DOWN (by decide)).1.mpr (Or.inr (by decide)),
   by decide, by decide⟩

/-- C7: in a RUNNING state whose tick is a growth tick — newHead in
bounds, not on the pre-move snake, and equal to the food cell — the tick
prepends the food cell as the new head with the tail retained (length
+1), adds exactly 10 to the score, and stores a relocated food that is
disjoint from every segment of the grown snake. -/
theorem c7_growth_tick (s : GameState) (candidates : List Point)
    (head : Point) (tl : List Point) (f : Point)
    (hs : s.snake = head :: tl) (hrun : phase s = .RUNNING)
    (hin : ¬ wallCollision (nextHead head s.direction))
    (hnotself : s.snake.any (fun segment =>
        segment.x == (nextHead head s.direction).x
        && segment.y == (nextHead head s.direction).y) = false)
    (hfood : nextHead head s.direction = s.food)
    (hgen : generateFood (nextHead head s.direction :: s.snake) candidates = some f) :
    moveSnake s candidates =
      some { s with
        snake := nextHead head s.direction :: s.snake,
        score := s.score + 10,
        food := f,
        lastDirection := s.direction }
    ∧ (nextHead head s.direction :: s.snake).head? = some s.food
    ∧ (nextHead head s.direction :: s.snake).length = s.snake.length + 1
    ∧ (nextHead head s.direction :: s.snake).any (fun segment =>
        segment.x == f.x && segment.y == f.y) = false := by
  refine ⟨?_, by rw [hfood]; rfl, rfl, generateFood_not_occupied _ _ _ hgen⟩
  obtain ⟨snake, food, direction, over, paused, confirm, score, high, diff, last⟩ := s
  simp only at hs hin hnotself hfood hgen ⊢
  subst hs
  simp only [moveSnake]
  rw [if_neg hin, if_neg ?_, if_pos ?_]
  · rw [hgen]
  · subst hfood
    simp
  · rw [hnotself]
    decide

/-- The growth scenario of spec §8: snake [(10,10),(10,11),(10,12)],
food at (10,9), direction UP, sampler then drawing (5,5). -/
def growthState : GameState :=
  { snake := [⟨10, 10⟩, ⟨10, 11⟩, ⟨10, 12⟩], food := ⟨10, 9⟩, direction := .UP,
    isGameOver := false, isPaused := false, showPauseConfirm := false,
    score := 0, highScore := 0, difficulty := .MEDIUM, lastDirection := .UP }

/-- C7 witness at `growthState`. -/
theorem c7_growth_tick_witness :
    moveSnake growthState [⟨5, 5⟩] =
      some { growthState with
        snake := ⟨10, 9⟩ :: growthState.snake,
        score := growthState.score + 10,
        food := ⟨5, 5⟩,
        lastDirection := .UP } :=
  (c7_growth_tick growthState [⟨5, 5⟩] ⟨10, 10⟩ [⟨10, 11⟩, ⟨10, 12⟩] ⟨5, 5⟩
    (by decide) (by decide) (by decide) (by decide) (by decide) (by decide)).1

/-- C8: in a RUNNING state whose tick's newHead is out of bounds, the
tick hits the wall-collision branch: `endGame` is called — the phase
transitions RUNNING to OVER — and the snake sequence is returned
unchanged (no mutation persisted). -/
theorem c8_wall_collision (s : GameState) (candidates : List Point)
    (head : Point) (tl : List Point) (hs : s.snake = head :: tl)
    (hrun : phase s = .RUNNING)
    (hwall : wallCollision (nextHead head s.direction)) :
    moveSnake s candidates = some (endGame s)
    ∧ (endGame s).snake = s.snake
    ∧ phase (endGame s) = .OVER := by
  refine ⟨?_, rfl, by simp [phase, endGame]⟩
  obtain ⟨snake, food, direction, over, paused, confirm, score, high, diff, last⟩ := s
  simp only at hs hwall ⊢
  subst hs
  simp only [moveSnake]
  rw [if_pos hwall]

/-- The wall scenario of spec §8: head (0,5) moving LEFT. -/
def leftWallState : GameState :=
  { snake := [⟨0, 5⟩, ⟨1, 5⟩, ⟨2, 5⟩], food := ⟨9, 9⟩, direction := .LEFT,
    isGameOver := false, isPaused := false, showPauseConfirm := false,
    score := 40, highScore := 40, difficulty := .HARD, lastDirection := .LEFT }

/-- C8 witness at `leftWallState`: newHead.x = -1. -/
theorem c8_wall_collision_witness :
    moveSnake leftWallState [] = some (endGame leftWallState)
    ∧ (endGame leftWallState).snake = leftWallState.snake :=
  ⟨(c8_wall_collision leftWallState [] ⟨0, 5⟩ [⟨1, 5⟩, ⟨2, 5⟩]
      (by decide) (by decide) (by decide)).1,
   (c8_wall_collision leftWallState [] ⟨0, 5⟩ [⟨1, 5⟩, ⟨2, 5⟩]
      (by decide) (by decide) (by decide)).2.1⟩

/-- C10: a pause-toggle intent in the CONFIRM_PAUSE phase (not game
over, positive score, paused with the confirm dialog up) resumes the
game — both the paused flag and the confirm-dialog flag become false and
the phase becomes RUNNING; and in the OVER phase a pause-toggle intent
is a no-op leaving the whole state unchanged. -/
theorem c10_pause_toggle (s : GameState) :
    (phase s = .CONFIRM_PAUSE ∧ 0 < s.score →
      (handlePauseRequest s).isPaused = false
      ∧ (handlePauseRequest s).showPauseConfirm = false
      ∧ phase (handlePauseRequest s) = .RUNNING)
    ∧ (phase s = .OVER → handlePauseRequest s = s) := by
  constructor
  · rintro ⟨hph, hscore⟩
    have hover : s.isGameOver = false := by
      cases h : s.isGameOver
      · rfl
      · simp [phase, h] at hph
    have hpause : s.isPaused = true := by
      cases h : s.isPaused
      · simp [phase, hover, h] at hph
      · rfl
    have hreq : handlePauseRequest s =
        { s with isPaused := false, showPauseConfirm := false } := by
      unfold handlePauseRequest
      rw [if_pos ⟨hover, hscore⟩, if_neg (by rw [hpause]; decide)]
    rw [hreq]
    exact ⟨rfl, rfl, by simp [phase, hover]⟩
  · intro hph
    have hover : s.isGameOver = true := by
      cases h : s.isGameOver
      · simp [phase, h] at hph
        cases h2 : s.isPaused <;> cases h3 : s.showPauseConfirm <;>
          simp [h2, h3] at hph <;> split at hph <;> simp_all
      · rfl
    unfold handlePauseRequest
    rw [if_neg (by rw [hover]; simp), if_neg (by rw [hover]; simp)]

/-- A CONFIRM_PAUSE state: score 30, dialog showing. -/
def confirmPauseState : GameState :=
  { snake := initialSnake, food := ⟨5, 5⟩, direction := .UP,
    isGameOver := false, isPaused := true, showPauseConfirm := true,
    score := 30, highScore := 30, difficulty := .MEDIUM, lastDirection := .UP }

/-- A game-over state. -/
def overState : GameState :=
  { snake := initialSnake, food := ⟨5, 5⟩, direction := .UP,
    isGameOver := true, isPaused := true, showPauseConfirm := false,
    score := 30, highScore := 30, difficulty := .MEDIUM, lastDirection := .UP }

/-- C10 witness at `confirmPauseState` and `overState`. -/
theorem c10_pause_toggle_witness :
    (handlePauseRequest confirmPauseState).isPaused = false
    ∧ phase (handlePauseRequest confirmPauseState) = .RUNNING
    ∧ handlePauseRequest overState = overState :=
  ⟨((c10_pause_toggle confirmPauseState).1 (by decide)).1,
   ((c10_pause_toggle confirmPauseState).1 (by decide)).2.2,
   (c10_pause_toggle overState).2 (by decide)⟩

end SnakeGame
